import Mathlib

/-!
# Verification of the azurepush client core

A shallow embedding of the `kataras/azurepush` Go library (SAS token
issuance, the token cache, the multi-platform notification dispatcher and
device registration), with theorems checking the natural-language
specification against it.

Go strings are byte sequences, so throughout the token subsystem we model a
Go `string` as its list of UTF-8 byte values (`List Nat`, each entry < 256).
Machine integers (`int64` Unix times, 32-bit SHA words) are modelled as
`Int`/`Nat` with explicit masking where overflow matters.
-/

namespace Azurepush

/-- UTF-8 encoding of a single character, as byte values (models Go's string
encoding; Go source strings are UTF-8). -/
def charUtf8 (c : Char) : List Nat :=
  let n := c.toNat
  if n < 0x80 then [n]
  else if n < 0x800 then
    [0xC0 + n / 0x40, 0x80 + n % 0x40]
  else if n < 0x10000 then
    [0xE0 + n / 0x1000, 0x80 + (n / 0x40) % 0x40, 0x80 + n % 0x40]
  else
    [0xF0 + n / 0x40000, 0x80 + (n / 0x1000) % 0x40,
     0x80 + (n / 0x40) % 0x40, 0x80 + n % 0x40]

/-- The UTF-8 bytes of a Lean string; used to write Go string literals of the
source as byte lists. -/
def strBytes (s : String) : List Nat :=
  s.data.flatMap charUtf8

/-! ## SHA-256 (FIPS 180-4), over byte lists

Models Go's `crypto/sha256` as used by `GenerateSASToken`. Words are `Nat`
masked to 32 bits. -/

/-- Truncate to a 32-bit word. -/
def w32 (n : Nat) : Nat := n % 4294967296

/-- 32-bit right rotation. -/
def rotr32 (n k : Nat) : Nat :=
  w32 ((n >>> k) ||| (n <<< (32 - k)))

/-- SHA-256 round constants (FIPS 180-4 §4.2.2, written in decimal). -/
def shaK : List Nat :=
  [1116352408, 1899447441, 3049323471, 3921009573, 961987163, 1508970993,
   2453635748, 2870763221, 3624381080, 310598401, 607225278, 1426881987,
   1925078388, 2162078206, 2614888103, 3248222580, 3835390401, 4022224774,
   264347078, 604807628, 770255983, 1249150122, 1555081692, 1996064986,
   2554220882, 2821834349, 2952996808, 3210313671, 3336571891, 3584528711,
   113926993, 338241895, 666307205, 773529912, 1294757372, 1396182291,
   1695183700, 1986661051, 2177026350, 2456956037, 2730485921, 2820302411,
   3259730800, 3345764771, 3516065817, 3600352804, 4094571909, 275423344,
   430227734, 506948616, 659060556, 883997877, 958139571, 1322822218,
   1537002063, 1747873779, 1955562222, 2024104815, 2227730452, 2361852424,
   2428436474, 2756734187, 3204031479, 3329325298]

/-- SHA-256 initial hash value (FIPS 180-4 §5.3.3, written in decimal). -/
def shaH0 : List Nat :=
  [1779033703, 3144134277, 1013904242, 2773480762,
   1359893119, 2600822924, 528734635, 1541459225]

/-- Big-endian bytes of `n`, `k` bytes wide. -/
def beBytes (k n : Nat) : List Nat :=
  match k with
  | 0 => []
  | k + 1 => beBytes k (n / 256) ++ [n % 256]

/-- SHA-256 message padding: append `0x80`, zeros, and the 64-bit big-endian
bit length, reaching a multiple of 64 bytes. -/
def shaPad (msg : List Nat) : List Nat :=
  let len := msg.length
  let padZeros := (55 + 64 - len % 64) % 64
  msg ++ [0x80] ++ List.replicate padZeros 0 ++ beBytes 8 (len * 8)

/-- Combine groups of 4 bytes into big-endian 32-bit words. -/
def bytesToWords : List Nat → List Nat
  | b0 :: b1 :: b2 :: b3 :: rest =>
      (((b0 * 256 + b1) * 256 + b2) * 256 + b3) :: bytesToWords rest
  | _ => []

/-- Extend 16 message words to the 64-word SHA-256 schedule. -/
def shaSchedule (ws : List Nat) (i : Nat) : List Nat :=
  match i with
  | 0 => ws
  | i + 1 =>
    let ws := shaSchedule ws i
    let j := ws.length
    let g k := ws.getD (j - k) 0
    let s0 := (rotr32 (g 15) 7) ^^^ (rotr32 (g 15) 18) ^^^ ((g 15) >>> 3)
    let s1 := (rotr32 (g 2) 17) ^^^ (rotr32 (g 2) 19) ^^^ ((g 2) >>> 10)
    ws ++ [w32 (g 16 + s0 + g 7 + s1)]

/-- One SHA-256 compression round over the 8-word state. -/
def shaRound (st : List Nat) (kw : Nat × Nat) : List Nat :=
  match st with
  | [a, b, c, d, e, f, g, h] =>
    let s1 := (rotr32 e 6) ^^^ (rotr32 e 11) ^^^ (rotr32 e 25)
    let ch := (e &&& f) ^^^ ((w32 (4294967295 - e)) &&& g)
    let t1 := w32 (h + s1 + ch + kw.1 + kw.2)
    let s0 := (rotr32 a 2) ^^^ (rotr32 a 13) ^^^ (rotr32 a 22)
    let mj := (a &&& b) ^^^ (a &&& c) ^^^ (b &&& c)
    let t2 := w32 (s0 + mj)
    [w32 (t1 + t2), a, b, c, w32 (d + t1), e, f, g]
  | st => st

/-- Process one 64-byte block, updating the 8-word chaining state. -/
def shaBlock (st : List Nat) (block : List Nat) : List Nat :=
  let ws := shaSchedule (bytesToWords block) 48
  let st' := (shaK.zip ws).foldl shaRound st
  (st.zip st').map fun p => w32 (p.1 + p.2)

/-- Split a padded message into 64-byte blocks and fold the compression. -/
def shaBlocks (st : List Nat) (msg : List Nat) : List Nat :=
  if _h : msg.length ≤ 64 then shaBlock st (msg.take 64)
  else shaBlocks (shaBlock st (msg.take 64)) (msg.drop 64)
  termination_by msg.length
  decreasing_by
    simp only [List.length_drop]
    omega

/-- SHA-256 digest (32 bytes) of a byte list. -/
def sha256 (msg : List Nat) : List Nat :=
  (shaBlocks shaH0 (shaPad msg)).flatMap (beBytes 4)

/-- HMAC-SHA256 (RFC 2104), models Go's `crypto/hmac` with `sha256.New`. -/
def hmacSha256 (key msg : List Nat) : List Nat :=
  let k0 := if key.length > 64 then sha256 key else key
  let kp := k0 ++ List.replicate (64 - k0.length) 0
  let ipad := kp.map (fun b => b ^^^ 0x36)
  let opad := kp.map (fun b => b ^^^ 0x5c)
  sha256 (opad ++ sha256 (ipad ++ msg))

/-! ## Base64 and percent-encoding -/

/-- The standard base64 alphabet (`encoding/base64.StdEncoding`), as the byte
value of the character at index `i`. -/
def base64Char (i : Nat) : Nat :=
  if i < 26 then 65 + i
  else if i < 52 then 97 + (i - 26)
  else if i < 62 then 48 + (i - 52)
  else if i = 62 then 43
  else 47

/-- Standard base64 encoding with `=` padding, over byte lists. -/
def base64Encode : List Nat → List Nat
  | [] => []
  | [b0] =>
      [base64Char (b0 / 4), base64Char (b0 % 4 * 16), 61, 61]
  | [b0, b1] =>
      [base64Char (b0 / 4), base64Char (b0 % 4 * 16 + b1 / 16),
       base64Char (b1 % 16 * 4), 61]
  | b0 :: b1 :: b2 :: rest =>
      base64Char (b0 / 4) :: base64Char (b0 % 4 * 16 + b1 / 16) ::
      base64Char (b1 % 16 * 4 + b2 / 64) :: base64Char (b2 % 64) ::
      base64Encode rest

/-- Bytes Go's `url.QueryEscape` leaves unescaped: alphanumerics and
`-`, `.`, `_`, `~`. -/
def isUnreservedByte (b : Nat) : Bool :=
  (48 ≤ b && b ≤ 57) || (65 ≤ b && b ≤ 90) || (97 ≤ b && b ≤ 122)
    || b == 45 || b == 46 || b == 95 || b == 126

/-- Upper-case hexadecimal digit, as a byte value. -/
def hexUpper (n : Nat) : Nat := if n < 10 then 48 + n else 55 + n

/-- Escaping of one byte under Go's `url.QueryEscape`: unreserved bytes kept,
space becomes `+` (43), everything else `%XX` (37 = `%`). -/
def escapeByte (b : Nat) : List Nat :=
  if isUnreservedByte b then [b]
  else if b == 32 then [43]
  else [37, hexUpper (b / 16), hexUpper (b % 16)]

/-- Go's `url.QueryEscape` over a byte string. -/
def queryEscape (bs : List Nat) : List Nat :=
  bs.flatMap escapeByte

/-! ## Decimal rendering (`fmt.Sprintf("%d", ·)` on an `int64`) -/

/-- Decimal digits (byte values `'0'..'9'`) of a natural number, most
significant first. -/
def natDec (n : Nat) : List Nat :=
  if h : n < 10 then [48 + n]
  else natDec (n / 10) ++ [48 + n % 10]
  termination_by n
  decreasing_by
    exact Nat.div_lt_self (by omega) (by omega)

/-- Decimal rendering of an integer: `-` (45) prefix for negatives. -/
def intDec (i : Int) : List Nat :=
  if i < 0 then 45 :: natDec (-i).toNat else natDec i.toNat

/-! ## `GenerateSASToken` (token.go) -/

/-- `GenerateSASToken(resourceUri, keyName, key, duration)` of the source,
with the clock passed explicitly: `now` is `time.Now().Unix()` and
`durationSecs` the validity in whole seconds, so `ttl` is
`time.Now().Add(duration).Unix()`. Returns the token bytes, or the
`missing required parameter` error when an input is empty. -/
def generateSASToken (now : Int) (resourceUri keyName key : List Nat)
    (durationSecs : Int) : Except (List Nat) (List Nat) :=
  if resourceUri == [] || keyName == [] || key == [] then
    .error (strBytes "missing required parameter")
  else
    let encodedURI := queryEscape resourceUri
    let ttl := now + durationSecs
    let signingString := encodedURI ++ [10] ++ intDec ttl
    let signature := base64Encode (hmacSha256 key signingString)
    let encodedSig := queryEscape signature
    .ok (strBytes "SharedAccessSignature sr=" ++ encodedURI
      ++ strBytes "&sig=" ++ encodedSig
      ++ strBytes "&se=" ++ intDec ttl
      ++ strBytes "&skn=" ++ keyName)

/-! ## `TokenManager` (token.go)

The mutex-guarded `GetToken` is modelled as a pure state transformer: the
whole locked section runs at one instant `now` (Unix seconds). The extra
`refreshed` flag records which branch executed — `true` exactly when the
issuer `GenerateSASToken` was invoked. -/

/-- The configuration fields `TokenManager` reads (config.go `Configuration`),
as byte strings plus the validity in whole seconds. -/
structure Configuration where
  nsname : List Nat
  hubName : List Nat
  keyName : List Nat
  keyValue : List Nat
  tokenValiditySecs : Int
  deriving Repr, DecidableEq

/-- The mutable fields of `TokenManager`: the cached token and its expiry
(Unix seconds). -/
structure TMState where
  token : List Nat
  expiresAt : Int
  deriving Repr, DecidableEq

/-- Result of one `GetToken` call: the returned value, the state after the
call, and whether the issuer was invoked. -/
structure GetTokenResult where
  result : Except (List Nat) (List Nat)
  state : TMState
  refreshed : Bool

/-- The resource URI built inside `GetToken`:
`"https://" + Namespace + ".servicebus.windows.net/" + HubName`. -/
def resourceURI (cfg : Configuration) : List Nat :=
  strBytes "https://" ++ cfg.nsname ++ strBytes ".servicebus.windows.net/"
    ++ cfg.hubName

/-- The refresh test of `GetToken`:
`tm.token == "" || time.Now().After(tm.expiresAt.Add(-5*time.Minute))`.
`time.Time.After` is a strict comparison, so this is
`token = [] ∨ expiresAt - 300 < now`. -/
def needsRefresh (s : TMState) (now : Int) : Bool :=
  s.token == [] || decide (s.expiresAt - 300 < now)

/-- `TokenManager.GetToken`, as a state transformer at instant `now`. -/
def getToken (cfg : Configuration) (s : TMState) (now : Int) : GetTokenResult :=
  if needsRefresh s now then
    match generateSASToken now (resourceURI cfg) cfg.keyName cfg.keyValue
        cfg.tokenValiditySecs with
    | .error e => ⟨.error e, s, true⟩
    | .ok t => ⟨.ok t, ⟨t, now + cfg.tokenValiditySecs⟩, true⟩
  else ⟨.ok s.token, s, false⟩

/-! ## Notification dispatch (client.go)

`SendNotification` fetches a token, then loops over `availablePlatforms`
calling `sendPlatformNotification`. The HTTP transport is modelled as a
function from platform name to the `(statusCode, body)` the hub answers for
that platform's POST. Only the response classification and the aggregation
loop are modelled; payload marshalling cannot fail for the payload shapes the
code builds. -/

/-- `availablePlatforms = []string{applePlatform, gcmPlatform, fcmV1Platform}`. -/
def availablePlatforms : List String := ["apple", "gcm", "fcmV1"]

/-- Outcome of one `sendPlatformNotification` call, mirroring its error
returns (client.go lines 338–347). -/
inductive PlatformOutcome
  | success
  | deviceNotFound (platform : String)
  | platformError (platform : String) (status : Nat) (body : String)
  deriving Repr, DecidableEq

/-- Response classification of `sendPlatformNotification`: 404/410 →
`errDeviceNotFound`-wrapped skip, any other status ≥ 300 → hard error with
platform, status and body, otherwise success. -/
def classifyResponse (platform : String) (status : Nat) (body : String) :
    PlatformOutcome :=
  if status == 404 || status == 410 then .deviceNotFound platform
  else if 300 ≤ status then .platformError platform status body
  else .success

/-- Overall result of `SendNotification`. -/
inductive SendResult
  | ok
  | noDeviceFound (tags : List String)
  | platformError (platform : String) (status : Nat) (body : String)
  deriving Repr, DecidableEq

/-- The platform loop of `SendNotification` (client.go lines 232–248) over
the remaining platforms, also returning the list of platforms attempted.
`resp` gives the hub's `(status, body)` answer per platform; `noDevices` is
the running tally. -/
def sendLoop (resp : String → Nat × String) (tags : List String) :
    List String → Nat → SendResult × List String
  | [], noDevices =>
    (if noDevices == availablePlatforms.length then .noDeviceFound tags
     else .ok, [])
  | p :: rest, noDevices =>
    match classifyResponse p (resp p).1 (resp p).2 with
    | .success =>
        let r := sendLoop resp tags rest noDevices
        (r.1, p :: r.2)
    | .deviceNotFound _ =>
        let r := sendLoop resp tags rest (noDevices + 1)
        (r.1, p :: r.2)
    | .platformError pf st b => (.platformError pf st b, [p])

/-- `Client.SendNotification` restricted to its dispatch loop (the token was
already fetched): iterate `availablePlatforms`, tallying device-not-found
skips, aborting on a hard error, and failing with the tag-naming
`errDeviceNotFound` wrap when every platform was skipped. -/
def sendNotification (resp : String → Nat × String) (tags : List String) :
    SendResult × List String :=
  sendLoop resp tags availablePlatforms 0

/-! ## Platform envelopes (client.go lines 295–315)

JSON values, with objects as ordered field lists. Go maps are association
lists with pairwise-distinct keys; `json.Marshal` output order never appears
in a claim, so envelopes are compared as JSON values. -/

/-- JSON values; `obj` keeps fields in construction order. -/
inductive Json
  | str (s : String)
  | num (n : Int)
  | jsonBool (b : Bool)
  | null
  | arr (elems : List Json)
  | obj (fields : List (String × Json))

/-- Go map lookup on an association list. -/
def mapGet (m : List (String × Json)) (k : String) : Option Json :=
  match m with
  | [] => none
  | (k', v) :: rest => if k' == k then some v else mapGet rest k

/-- Go map assignment `m[k] = v`: replace an existing entry, else append. -/
def mapPut (m : List (String × Json)) (k : String) (v : Json) :
    List (String × Json) :=
  match m with
  | [] => [(k, v)]
  | (k', v') :: rest =>
    if k' == k then (k', v) :: rest else (k', v') :: mapPut rest k v

/-- `maps.Copy(dst, src)`: assign every entry of `src` into `dst`. -/
def mapsCopy (dst src : List (String × Json)) : List (String × Json) :=
  src.foldl (fun d kv => mapPut d kv.1 kv.2) dst

/-- The shared `notificationMessage{title, body}` struct. -/
structure NotificationMessage where
  title : String
  body : String
  deriving Repr, DecidableEq

/-- JSON marshalling of `notificationMessage` (struct fields in order). -/
def notificationMessageJson (msg : NotificationMessage) : Json :=
  .obj [("title", .str msg.title), ("body", .str msg.body)]

/-- The `apple` branch of `sendPlatformNotification`: start from
`{"aps": {"alert": msg}}` and `maps.Copy` the custom data over it. -/
def applePayload (msg : NotificationMessage) (data : List (String × Json)) :
    List (String × Json) :=
  mapsCopy [("aps", Json.obj [("alert", notificationMessageJson msg)])] data

/-- The `gcm`/`fcmV1` branch: marshal `androidNotificationWithData`, whose
`Data` field carries `json:"data,omitempty"` — a nil or empty map omits the
`data` key entirely. -/
def androidPayload (msg : NotificationMessage) (data : List (String × Json)) :
    Json :=
  if data.isEmpty then .obj [("notification", notificationMessageJson msg)]
  else .obj [("notification", notificationMessageJson msg),
             ("data", .obj data)]

/-! ## Device registration (client.go lines 128–211) -/

/-- `Installation` with the fields `RegisterDevice` reads and sends.
`templates` stands in for the optional `Templates` map. -/
structure Installation where
  installationID : String
  platform : String
  pushChannel : String
  tags : List String
  templates : List (String × Json)

/-- `Installation.Validate`: platform must be one of the accepted
identifiers, then `InstallationID` and `PushChannel` must be non-empty. -/
def validateInstallation (i : Installation) : Except String Unit :=
  if i.platform == "apns" || i.platform == "gcm" || i.platform == "fcm"
      || i.platform == "FCMV1" || i.platform == "baidu"
      || i.platform == "wns" || i.platform == "mpns" then
    if i.installationID == "" then .error "installation ID is required"
    else if i.pushChannel == "" then .error "push channel is required"
    else .ok ()
  else .error "invalid platform"

/-- The ID-assignment step of `RegisterDevice` (client.go lines 164–169): an
empty `InstallationID` is replaced by a freshly generated UUID. -/
def assignID (freshID : String) (i : Installation) : Installation :=
  if i.installationID == "" then { i with installationID := freshID } else i

/-- The installation `RegisterDevice` marshals and PUTs: after ID assignment,
platform `"fcm"` is rewritten to the legacy `"gcm"` (client.go lines
180–182). -/
def sentInstallation (freshID : String) (i : Installation) : Installation :=
  let j := assignID freshID i
  if j.platform == "fcm" then { j with platform := "gcm" } else j

/-- `Client.RegisterDevice` as a pure pipeline: `freshID` models
`uuid.NewString()` (used only when the caller left `InstallationID` empty)
and `respStatus` the status of the PUT. Steps in source order: assign the ID,
validate, rewrite the platform alias, send, and on a status < 300 return the
installation ID of the sent installation. The SAS-token fetch between
validation and the rewrite is assumed to succeed. -/
def registerDevice (freshID : String) (i : Installation) (respStatus : Nat) :
    Except String (String × Installation) :=
  match validateInstallation (assignID freshID i) with
  | .error e => .error ("invalid installation data: " ++ e)
  | .ok _ =>
    if 300 ≤ respStatus then .error "registration failed"
    else .ok ((sentInstallation freshID i).installationID,
              sentInstallation freshID i)

/-! ## Derived definitions used by the statements -/

/-- The token `GenerateSASToken` returns on success, as a function of the
computed expiry `ttl`. -/
def sasTokenBytes (resourceUri keyName key : List Nat) (ttl : Int) : List Nat :=
  strBytes "SharedAccessSignature sr=" ++ queryEscape resourceUri
    ++ strBytes "&sig="
    ++ queryEscape (base64Encode (hmacSha256 key
         (queryEscape resourceUri ++ [10] ++ intDec ttl)))
    ++ strBytes "&se=" ++ intDec ttl
    ++ strBytes "&skn=" ++ keyName

/-- Decimal parsing with accumulator; left inverse of `natDec`. -/
def parseAcc (a : Nat) (l : List Nat) : Nat :=
  l.foldl (fun a d => a * 10 + (d - 48)) a

end Azurepush

namespace Azurepush

/-! ## Helper lemmas -/

theorem generateSASToken_ok (now : Int) (u kn k : List Nat) (d : Int)
    (h1 : u ≠ []) (h2 : kn ≠ []) (h3 : k ≠ []) :
    generateSASToken now u kn k d = .ok (sasTokenBytes u kn k (now + d)) := by
  simp [generateSASToken, sasTokenBytes, h1, h2, h3]

theorem natDec_digits (n : Nat) : ∀ d ∈ natDec n, 48 ≤ d ∧ d ≤ 57 := by
  induction n using Nat.strong_induction_on with
  | _ n ih =>
    unfold natDec
    split
    · intro d hd
      simp only [List.mem_singleton] at hd
      omega
    · intro d hd
      rw [List.mem_append] at hd
      rcases hd with hd | hd
      · exact ih (n / 10) (Nat.div_lt_self (by omega) (by omega)) d hd
      · simp only [List.mem_singleton] at hd
        have := Nat.mod_lt n (y := 10) (by omega)
        omega

theorem natDec_ne_nil (n : Nat) : natDec n ≠ [] := by
  unfold natDec
  split
  · simp
  · simp

theorem parseAcc_append (a : Nat) (l1 l2 : List Nat) :
    parseAcc a (l1 ++ l2) = parseAcc (parseAcc a l1) l2 := by
  simp [parseAcc, List.foldl_append]

theorem parseAcc_natDec (n : Nat) : ∀ a : Nat,
    parseAcc a (natDec n) = a * 10 ^ (natDec n).length + n := by
  induction n using Nat.strong_induction_on with
  | _ n ih =>
    intro a
    unfold natDec
    split
    · simp only [parseAcc, List.foldl_cons, List.foldl_nil,
        List.length_singleton, pow_one]
      omega
    · rw [parseAcc_append]
      rw [ih (n / 10) (Nat.div_lt_self (by omega) (by omega))]
      simp only [parseAcc, List.foldl_cons, List.foldl_nil, List.length_append,
        List.length_singleton]
      rw [pow_succ]
      have hmod : n % 10 + 48 - 48 = n % 10 := by omega
      have := Nat.div_add_mod n 10
      ring_nf
      omega

theorem natDec_inj {m n : Nat} (h : natDec m = natDec n) : m = n := by
  have hm := parseAcc_natDec m 0
  have hn := parseAcc_natDec n 0
  rw [h] at hm
  simp at hm hn
  omega

theorem intDec_inj {i j : Int} (h : intDec i = intDec j) : i = j := by
  unfold intDec at h
  split at h <;> split at h
  · rename_i hi hj
    simp only [List.cons.injEq, true_and] at h
    have := natDec_inj h
    omega
  · rename_i hi hj
    obtain ⟨d, t, hdt⟩ : ∃ d t, natDec j.toNat = d :: t := by
      cases hnd : natDec j.toNat with
      | nil => exact absurd hnd (natDec_ne_nil _)
      | cons d t => exact ⟨d, t, rfl⟩
    rw [hdt] at h
    have hd : 48 ≤ d ∧ d ≤ 57 := natDec_digits _ d (by rw [hdt]; simp)
    simp only [List.cons.injEq] at h
    omega
  · rename_i hi hj
    obtain ⟨d, t, hdt⟩ : ∃ d t, natDec i.toNat = d :: t := by
      cases hnd : natDec i.toNat with
      | nil => exact absurd hnd (natDec_ne_nil _)
      | cons d t => exact ⟨d, t, rfl⟩
    rw [hdt] at h
    have hd : 48 ≤ d ∧ d ≤ 57 := natDec_digits _ d (by rw [hdt]; simp)
    simp only [List.cons.injEq] at h
    omega
  · rename_i hi hj
    have := natDec_inj h
    omega

theorem hexUpper_ge (n : Nat) : 48 ≤ hexUpper n := by
  unfold hexUpper
  split <;> omega

theorem escapeByte_ne_amp (b : Nat) : ∀ d ∈ escapeByte b, d ≠ 38 := by
  unfold escapeByte
  split
  · rename_i h
    intro d hd
    simp only [List.mem_singleton] at hd
    subst hd
    intro h38
    subst h38
    exact absurd h (by decide)
  · split
    · intro d hd
      simp only [List.mem_singleton] at hd
      omega
    · intro d hd
      have h1 := hexUpper_ge (b / 16)
      have h2 := hexUpper_ge (b % 16)
      simp only [List.mem_cons, List.mem_singleton, List.not_mem_nil,
        or_false] at hd
      rcases hd with hd | hd | hd <;> omega

theorem queryEscape_ne_amp (bs : List Nat) : ∀ d ∈ queryEscape bs, d ≠ 38 := by
  intro d hd
  rw [queryEscape, List.mem_flatMap] at hd
  obtain ⟨b, _, hmem⟩ := hd
  exact escapeByte_ne_amp b d hmem

theorem intDec_ne_amp (i : Int) : ∀ d ∈ intDec i, d ≠ 38 := by
  unfold intDec
  split
  · intro d hd
    simp only [List.mem_cons] at hd
    rcases hd with hd | hd
    · omega
    · have := natDec_digits _ d hd
      omega
  · intro d hd
    have := natDec_digits _ d hd
    omega

theorem append_amp_inj :
    ∀ (xs : List Nat) (ys u v : List Nat), (∀ c ∈ xs, c ≠ 38) →
      (∀ c ∈ ys, c ≠ 38) → (∃ u', u = 38 :: u') → (∃ v', v = 38 :: v') →
      xs ++ u = ys ++ v → xs = ys ∧ u = v := by
  intro xs
  induction xs with
  | nil =>
    intro ys u v _ hy hu _ h
    cases ys with
    | nil => simpa using h
    | cons y ys' =>
      obtain ⟨u', rfl⟩ := hu
      simp only [List.nil_append, List.cons_append, List.cons.injEq] at h
      exact absurd h.1.symm (hy y (by simp))
  | cons x xs' ih =>
    intro ys u v hx hy hu hv h
    cases ys with
    | nil =>
      obtain ⟨v', rfl⟩ := hv
      simp only [List.nil_append, List.cons_append, List.cons.injEq] at h
      exact absurd h.1 (hx x (by simp))
    | cons y ys' =>
      simp only [List.cons_append, List.cons.injEq] at h
      obtain ⟨rfl, htail⟩ := h
      have := ih ys' u v (fun c hc => hx c (by simp [hc]))
        (fun c hc => hy c (by simp [hc])) hu hv htail
      exact ⟨by rw [this.1], this.2⟩

theorem sasTokenBytes_ttl_inj {u kn k : List Nat} {t1 t2 : Int}
    (h : sasTokenBytes u kn k t1 = sasTokenBytes u kn k t2) : t1 = t2 := by
  unfold sasTokenBytes at h
  rw [show (strBytes "&se=") = 38 :: strBytes "se=" from rfl,
    show (strBytes "&skn=") = 38 :: strBytes "skn=" from rfl] at h
  simp only [List.append_assoc] at h
  replace h := List.append_cancel_left h
  replace h := List.append_cancel_left h
  replace h := List.append_cancel_left h
  have hsplit := append_amp_inj _ _ _ _
    (queryEscape_ne_amp _) (queryEscape_ne_amp _)
    ⟨_, rfl⟩ ⟨_, rfl⟩ h
  replace h := List.cons_injective hsplit.2
  replace h := List.append_cancel_left h
  have hsplit2 := append_amp_inj _ _ _ _
    (intDec_ne_amp t1) (intDec_ne_amp t2) ⟨_, rfl⟩ ⟨_, rfl⟩ h
  exact intDec_inj hsplit2.1

theorem resourceURI_ne_nil (cfg : Configuration) : resourceURI cfg ≠ [] := by
  rw [resourceURI, show strBytes "https://" = 104 :: strBytes "ttps://" from rfl]
  simp

theorem getToken_hit (cfg : Configuration) (s : TMState) (now : Int)
    (h : needsRefresh s now = false) :
    getToken cfg s now = ⟨.ok s.token, s, false⟩ := by
  simp [getToken, h]

theorem getToken_refresh_ok (cfg : Configuration) (s : TMState) (now : Int)
    (h : needsRefresh s now = true) (hk : cfg.keyName ≠ [])
    (hv : cfg.keyValue ≠ []) :
    getToken cfg s now =
      ⟨.ok (sasTokenBytes (resourceURI cfg) cfg.keyName cfg.keyValue
          (now + cfg.tokenValiditySecs)),
        ⟨sasTokenBytes (resourceURI cfg) cfg.keyName cfg.keyValue
          (now + cfg.tokenValiditySecs), now + cfg.tokenValiditySecs⟩,
        true⟩ := by
  simp [getToken, h, generateSASToken_ok now (resourceURI cfg) cfg.keyName
    cfg.keyValue cfg.tokenValiditySecs (resourceURI_ne_nil cfg) hk hv]

theorem mapGet_mapPut_self (m : List (String × Json)) (k : String) (v : Json) :
    mapGet (mapPut m k v) k = some v := by
  induction m with
  | nil => simp [mapPut, mapGet]
  | cons kv rest ih =>
    obtain ⟨k', v'⟩ := kv
    by_cases h : k' = k
    · simp [mapPut, mapGet, h]
    · simp [mapPut, mapGet, h, ih]

theorem mapGet_mapPut_other (m : List (String × Json)) (k k' : String)
    (v : Json) (h : k' ≠ k) :
    mapGet (mapPut m k v) k' = mapGet m k' := by
  induction m with
  | nil => simp [mapPut, mapGet, Ne.symm h]
  | cons kv rest ih =>
    obtain ⟨k0, v0⟩ := kv
    by_cases h0 : k0 = k
    · subst h0
      simp [mapPut, mapGet, Ne.symm h]
    · by_cases h1 : k0 = k'
      · subst h1
        simp [mapPut, mapGet, h0]
      · simp [mapPut, mapGet, h0, h1, ih]

theorem mapsCopy_cons (dst : List (String × Json)) (kv : String × Json)
    (rest : List (String × Json)) :
    mapsCopy dst (kv :: rest) = mapsCopy (mapPut dst kv.1 kv.2) rest := rfl

theorem mapGet_mapsCopy_notin (src : List (String × Json)) :
    ∀ (dst : List (String × Json)) (k : String), k ∉ src.map Prod.fst →
      mapGet (mapsCopy dst src) k = mapGet dst k := by
  induction src with
  | nil => intro dst k _; rfl
  | cons kv rest ih =>
    intro dst k hk
    simp only [List.map_cons, List.mem_cons, not_or] at hk
    rw [mapsCopy_cons, ih _ k hk.2, mapGet_mapPut_other dst kv.1 k kv.2 hk.1]

theorem mapGet_mapsCopy_mem (src : List (String × Json)) :
    ∀ (dst : List (String × Json)) (k : String) (v : Json),
      (src.map Prod.fst).Nodup → mapGet src k = some v →
      mapGet (mapsCopy dst src) k = some v := by
  induction src with
  | nil => intro dst k v _ hget; simp [mapGet] at hget
  | cons kv rest ih =>
    intro dst k v hnd hget
    obtain ⟨k0, v0⟩ := kv
    simp only [List.map_cons, List.nodup_cons] at hnd
    rw [mapsCopy_cons]
    by_cases h : k0 = k
    · subst h
      rw [mapGet] at hget
      simp only [beq_self_eq_true, if_true] at hget
      rw [mapGet_mapsCopy_notin rest _ k0 hnd.1, mapGet_mapPut_self]
      exact hget
    · rw [mapGet] at hget
      simp only [beq_iff_eq, h, if_false] at hget
      exact ih _ k v hnd.2 hget

theorem mapGet_eq_none_iff (m : List (String × Json)) (k : String) :
    mapGet m k = none ↔ k ∉ m.map Prod.fst := by
  induction m with
  | nil => simp [mapGet]
  | cons kv rest ih =>
    obtain ⟨k0, v0⟩ := kv
    by_cases h : k0 = k
    · subst h
      simp [mapGet]
    · simp [mapGet, h, ih, Ne.symm h]

theorem classify_notFound {p : String} {st : Nat} {b : String}
    (h : st = 404 ∨ st = 410) : classifyResponse p st b = .deviceNotFound p := by
  rcases h with rfl | rfl <;> simp [classifyResponse]

theorem classify_success {p : String} {st : Nat} {b : String} (h : st < 300) :
    classifyResponse p st b = .success := by
  unfold classifyResponse
  rw [if_neg, if_neg]
  · omega
  · simp only [Bool.or_eq_true, beq_iff_eq]
    omega

theorem classify_hard {p : String} {st : Nat} {b : String} (h : 300 ≤ st)
    (h4 : st ≠ 404) (h10 : st ≠ 410) :
    classifyResponse p st b = .platformError p st b := by
  unfold classifyResponse
  rw [if_neg, if_pos h]
  simp only [Bool.or_eq_true, beq_iff_eq]
  omega

/-- A platform answer is *soft* when the loop continues past it: a 2xx/1xx
success or a 404/410 device-not-found skip. -/
def softStatus (st : Nat) : Prop := st = 404 ∨ st = 410 ∨ st < 300

/-- The device-not-found tally predicate of the loop. -/
def isNotFound (resp : String → Nat × String) (p : String) : Bool :=
  (resp p).1 == 404 || (resp p).1 == 410

theorem sendLoop_soft (resp : String → Nat × String) (tags : List String) :
    ∀ (l rest : List String) (n : Nat), (∀ p ∈ l, softStatus (resp p).1) →
      sendLoop resp tags (l ++ rest) n =
        ((sendLoop resp tags rest (n + l.countP (isNotFound resp))).1,
         l ++ (sendLoop resp tags rest (n + l.countP (isNotFound resp))).2) := by
  intro l
  induction l with
  | nil =>
    intro rest n _
    simp [List.countP_nil]
  | cons p l ih =>
    intro rest n h
    have hp := h p (by simp)
    have htail : ∀ q ∈ l, softStatus (resp q).1 := fun q hq => h q (by simp [hq])
    rw [List.cons_append]
    rcases hp with h404 | h410 | hlt
    · rw [sendLoop, classify_notFound (Or.inl h404)]
      rw [ih rest (n + 1) htail]
      have hcnt : List.countP (isNotFound resp) (p :: l) =
          List.countP (isNotFound resp) l + 1 := by
        rw [List.countP_cons]
        simp [isNotFound, h404]
      rw [hcnt]
      have harith : n + 1 + List.countP (isNotFound resp) l =
          n + (List.countP (isNotFound resp) l + 1) := by omega
      rw [harith]
      simp
    · rw [sendLoop, classify_notFound (Or.inr h410)]
      rw [ih rest (n + 1) htail]
      have hcnt : List.countP (isNotFound resp) (p :: l) =
          List.countP (isNotFound resp) l + 1 := by
        rw [List.countP_cons]
        simp [isNotFound, h410]
      rw [hcnt]
      have harith : n + 1 + List.countP (isNotFound resp) l =
          n + (List.countP (isNotFound resp) l + 1) := by omega
      rw [harith]
      simp
    · rw [sendLoop, classify_success hlt]
      rw [ih rest n htail]
      have hcnt : List.countP (isNotFound resp) (p :: l) =
          List.countP (isNotFound resp) l := by
        rw [List.countP_cons]
        have hnf : isNotFound resp p = false := by
          simp only [isNotFound, Bool.or_eq_false_iff, beq_eq_false_iff_ne]
          omega
        simp [hnf]
      rw [hcnt]
      simp

theorem sendLoop_nil (resp : String → Nat × String) (tags : List String)
    (n : Nat) :
    sendLoop resp tags [] n =
      (if n == availablePlatforms.length then .noDeviceFound tags else .ok,
       []) := rfl

theorem sendLoop_hard (resp : String → Nat × String) (tags : List String)
    (p : String) (post : List String) (n : Nat) (h3 : 300 ≤ (resp p).1)
    (h4 : (resp p).1 ≠ 404) (h10 : (resp p).1 ≠ 410) :
    sendLoop resp tags (p :: post) n =
      (.platformError p (resp p).1 (resp p).2, [p]) := by
  rw [sendLoop, classify_hard h3 h4 h10]

theorem getToken_refreshed (cfg : Configuration) (s : TMState) (now : Int) :
    (getToken cfg s now).refreshed = needsRefresh s now := by
  rw [getToken]
  by_cases h : needsRefresh s now = true
  · rw [if_pos h, h]
    rcases generateSASToken now (resourceURI cfg) cfg.keyName
      cfg.keyValue cfg.tokenValiditySecs with e | t <;> rfl
  · rw [if_neg h]
    exact (Bool.not_eq_true _ ▸ h : needsRefresh s now = false).symm

theorem needsRefresh_iff (s : TMState) (now : Int) :
    needsRefresh s now = true ↔ (s.token = [] ∨ s.expiresAt - 300 < now) := by
  simp [needsRefresh]

theorem needsRefresh_false (s : TMState) (now : Int) (h1 : s.token ≠ [])
    (h2 : ¬(s.expiresAt - 300 < now)) : needsRefresh s now = false := by
  simp [needsRefresh, h1, h2]

theorem validateInstallation_ok_id {i : Installation}
    (h : validateInstallation i = .ok ()) : i.installationID ≠ "" := by
  unfold validateInstallation at h
  split at h
  · split at h
    · exact Except.noConfusion h
    · rename_i hid
      simpa using hid
  · exact Except.noConfusion h

theorem sentInstallation_installationID (freshID : String) (i : Installation) :
    (sentInstallation freshID i).installationID =
      (assignID freshID i).installationID := by
  unfold sentInstallation
  dsimp only
  split <;> rfl

theorem registerDevice_ok {freshID : String} {i : Installation} {st : Nat}
    {rid : String} {sent : Installation}
    (h : registerDevice freshID i st = .ok (rid, sent)) :
    validateInstallation (assignID freshID i) = .ok () ∧ st < 300 ∧
      sent = sentInstallation freshID i ∧ rid = sent.installationID := by
  rw [registerDevice] at h
  rcases hval : validateInstallation (assignID freshID i) with e | u
  · rw [hval] at h
    exact Except.noConfusion h
  · rw [hval] at h
    split at h
    · exact Except.noConfusion h
    · split at h
      · exact Except.noConfusion h
      · rename_i hst
        injection h with h2
        injection h2 with hrid hsent
        exact ⟨rfl, by omega, hsent.symm, by rw [← hrid, hsent]⟩

end Azurepush

namespace Azurepush

/-! ## Claims -/

/-- C1: For every non-empty resourceURI, keyName and key and every validity
duration, `GenerateSASToken` returns the string
`SharedAccessSignature sr=<e>&sig=<s>&se=<t>&skn=<keyName>` where `<e>` is
the percent-encoded resourceURI, `<t>` is the current Unix time plus the
validity in seconds rendered as an unpadded decimal integer, and `<s>` is the
percent-encoding of the standard base64 encoding of
HMAC-SHA256(key, `<e>` + "\n" + `<t>`); the signing string uses the encoded
URI (not the raw one) and the four fields appear in exactly this order. -/
theorem C1_sas_token_format (now : Int) (resourceUri keyName key : List Nat)
    (durationSecs : Int) (h1 : resourceUri ≠ []) (h2 : keyName ≠ [])
    (h3 : key ≠ []) :
    generateSASToken now resourceUri keyName key durationSecs =
      .ok (strBytes "SharedAccessSignature sr=" ++ queryEscape resourceUri
        ++ strBytes "&sig="
        ++ queryEscape (base64Encode (hmacSha256 key
             (queryEscape resourceUri ++ strBytes "\n"
               ++ intDec (now + durationSecs))))
        ++ strBytes "&se=" ++ intDec (now + durationSecs)
        ++ strBytes "&skn=" ++ keyName) := by
  rw [generateSASToken_ok now resourceUri keyName key durationSecs h1 h2 h3]
  rfl

/-- Witness for C1 at a concrete resource URI, key name, key, clock and
validity. -/
theorem C1_sas_token_format_witness :
    strBytes "https://myns.servicebus.windows.net/myhub" ≠ [] ∧
    strBytes "policy" ≠ [] ∧ strBytes "secret" ≠ [] ∧
    generateSASToken 1700000000
      (strBytes "https://myns.servicebus.windows.net/myhub")
      (strBytes "policy") (strBytes "secret") 3600 =
      .ok (strBytes "SharedAccessSignature sr="
        ++ queryEscape (strBytes "https://myns.servicebus.windows.net/myhub")
        ++ strBytes "&sig="
        ++ queryEscape (base64Encode (hmacSha256 (strBytes "secret")
             (queryEscape (strBytes "https://myns.servicebus.windows.net/myhub")
               ++ strBytes "\n" ++ intDec (1700000000 + 3600))))
        ++ strBytes "&se=" ++ intDec (1700000000 + 3600)
        ++ strBytes "&skn=" ++ strBytes "policy") :=
  ⟨by decide, by decide, by decide,
   C1_sas_token_format 1700000000 _ _ _ 3600 (by decide) (by decide)
     (by decide)⟩

/-- C7: For every input in which resourceURI, keyName, or key is the empty
string, `GenerateSASToken` fails with the `missing required parameter` error
and returns no token. -/
theorem C7_empty_input_rejected (now : Int) (resourceUri keyName key : List Nat)
    (durationSecs : Int) (h : resourceUri = [] ∨ keyName = [] ∨ key = []) :
    generateSASToken now resourceUri keyName key durationSecs =
      .error (strBytes "missing required parameter") := by
  rcases h with rfl | rfl | rfl <;> simp [generateSASToken]

/-- Witness for C7 with an empty resource URI. -/
theorem C7_empty_input_rejected_witness :
    (([] : List Nat) = [] ∨ strBytes "kn" = [] ∨ strBytes "secret" = []) ∧
    generateSASToken 0 [] (strBytes "kn") (strBytes "secret") 60 =
      .error (strBytes "missing required parameter") :=
  ⟨Or.inl rfl, C7_empty_input_rejected 0 [] _ _ 60 (by decide)⟩

/-- C8: If the token issuer fails during a refresh, `GetToken` surfaces the
failure and leaves both the cached token and the cached expiry exactly as
they were before the call. -/
theorem C8_issuer_failure_keeps_cache (cfg : Configuration) (s : TMState)
    (now : Int) (e : List Nat) (hr : needsRefresh s now = true)
    (hf : generateSASToken now (resourceURI cfg) cfg.keyName cfg.keyValue
        cfg.tokenValiditySecs = .error e) :
    getToken cfg s now = ⟨.error e, s, true⟩ := by
  simp [getToken, hr, hf]

/-- Witness for C8: a configuration with an empty key name makes the issuer
fail; the stale cache entry is preserved verbatim. -/
theorem C8_issuer_failure_keeps_cache_witness :
    needsRefresh ⟨strBytes "stale-token", 1000⟩ 5000 = true ∧
    generateSASToken 5000
      (resourceURI ⟨strBytes "ns", strBytes "hub", [], strBytes "kv", 3600⟩)
      [] (strBytes "kv") 3600 =
      .error (strBytes "missing required parameter") ∧
    getToken ⟨strBytes "ns", strBytes "hub", [], strBytes "kv", 3600⟩
      ⟨strBytes "stale-token", 1000⟩ 5000 =
      ⟨.error (strBytes "missing required parameter"),
        ⟨strBytes "stale-token", 1000⟩, true⟩ :=
  ⟨by decide, by rfl,
   C8_issuer_failure_keeps_cache ⟨strBytes "ns", strBytes "hub", [],
     strBytes "kv", 3600⟩ ⟨strBytes "stale-token", 1000⟩ 5000 _
     (by decide) (by rfl)⟩

/-- C5: The Apple envelope maps `"aps"` to `{"alert": {title, body}}`, merges
every customData key as a sibling of `"aps"` at top level (never nested under
`"alert"`), and on a key collision with `"aps"` the customData value wins. -/
theorem C5_apple_envelope (msg : NotificationMessage)
    (data : List (String × Json)) (hnd : (data.map Prod.fst).Nodup) :
    (mapGet data "aps" = none →
      mapGet (applePayload msg data) "aps" =
        some (Json.obj [("alert",
          Json.obj [("title", Json.str msg.title),
                    ("body", Json.str msg.body)])])) ∧
    (∀ k v, mapGet data k = some v →
      mapGet (applePayload msg data) k = some v) ∧
    (∀ k, k ≠ "aps" → mapGet data k = none →
      mapGet (applePayload msg data) k = none) := by
  refine ⟨?_, ?_, ?_⟩
  · intro h
    rw [applePayload, mapGet_mapsCopy_notin data _ "aps"
      ((mapGet_eq_none_iff data "aps").mp h)]
    rfl
  · intro k v h
    exact mapGet_mapsCopy_mem data _ k v hnd h
  · intro k hk h
    rw [applePayload, mapGet_mapsCopy_notin data _ k
      ((mapGet_eq_none_iff data k).mp h)]
    simp [mapGet, Ne.symm hk]

/-- Witness for C5 at the spec's example: `{title:"Hi", body:"Hello"}` with
customData `{"k":"v"}`. -/
theorem C5_apple_envelope_witness :
    (([("k", Json.str "v")] : List (String × Json)).map Prod.fst).Nodup ∧
    mapGet [("k", Json.str "v")] "aps" = none ∧
    mapGet (applePayload ⟨"Hi", "Hello"⟩ [("k", Json.str "v")]) "aps" =
      some (Json.obj [("alert",
        Json.obj [("title", Json.str "Hi"), ("body", Json.str "Hello")])]) ∧
    mapGet (applePayload ⟨"Hi", "Hello"⟩ [("k", Json.str "v")]) "k" =
      some (Json.str "v") :=
  ⟨by decide, by rfl,
   (C5_apple_envelope ⟨"Hi", "Hello"⟩ [("k", Json.str "v")] (by decide)).1
     (by rfl),
   (C5_apple_envelope ⟨"Hi", "Hello"⟩ [("k", Json.str "v")] (by decide)).2.1
     "k" (Json.str "v") (by rfl)⟩

/-- Counterexample to C6 as stated: for the empty customData mapping the
`data` key is omitted entirely (the struct field carries
`json:"data,omitempty"`), so the envelope is not
`{"notification": ..., "data": {}}`. -/
theorem C6_android_envelope_counterexample :
    androidPayload ⟨"Hi", "Hello"⟩ [] ≠
      Json.obj [("notification",
        Json.obj [("title", Json.str "Hi"), ("body", Json.str "Hello")]),
        ("data", Json.obj [])] := by
  simp [androidPayload, notificationMessageJson]

/-- C6 (amended): for every notification payload and every *non-empty*
customData mapping, the gcm/fcmV1 envelope is
`{"notification": {title, body}, "data": customData}` with custom data nested
under `"data"` and never merged into `"notification"`; for an empty or nil
mapping the `data` key is omitted. -/
theorem C6_android_envelope (msg : NotificationMessage)
    (data : List (String × Json)) (h : data ≠ []) :
    androidPayload msg data =
      Json.obj [("notification",
        Json.obj [("title", Json.str msg.title),
                  ("body", Json.str msg.body)]),
        ("data", Json.obj data)] := by
  cases data with
  | nil => exact absurd rfl h
  | cons kv rest => simp [androidPayload, notificationMessageJson]

/-- Witness for C6 at the spec's example input. -/
theorem C6_android_envelope_witness :
    ([("k", Json.str "v")] : List (String × Json)) ≠ [] ∧
    androidPayload ⟨"Hi", "Hello"⟩ [("k", Json.str "v")] =
      Json.obj [("notification",
        Json.obj [("title", Json.str "Hi"), ("body", Json.str "Hello")]),
        ("data", Json.obj [("k", Json.str "v")])] :=
  ⟨by simp, C6_android_envelope ⟨"Hi", "Hello"⟩ [("k", Json.str "v")]
    (by simp)⟩

/-- C9: On a successful registration, an installation whose platform is
`"fcm"` is sent with the legacy `"gcm"` platform identifier, while any other
accepted platform identifier is sent unchanged; no other field (beyond the
documented ID assignment) is altered. -/
theorem C9_fcm_alias_rewrite (freshID : String) (i : Installation)
    (respStatus : Nat) (rid : String) (sent : Installation)
    (h : registerDevice freshID i respStatus = .ok (rid, sent)) :
    sent.platform = (if i.platform = "fcm" then "gcm" else i.platform) ∧
    sent.pushChannel = i.pushChannel ∧ sent.tags = i.tags ∧
    sent.templates = i.templates := by
  obtain ⟨-, -, hsent, -⟩ := registerDevice_ok h
  subst hsent
  unfold sentInstallation assignID
  by_cases hid : i.installationID = "" <;> by_cases hpf : i.platform = "fcm" <;>
    simp [hid, hpf]

/-- Witness for C9: an `"fcm"` installation is sent as `"gcm"`. -/
theorem C9_fcm_alias_rewrite_witness :
    registerDevice "uuid-1" ⟨"dev-1", "fcm", "chan", ["user:42"], []⟩ 200 =
      .ok ("dev-1", ⟨"dev-1", "gcm", "chan", ["user:42"], []⟩) ∧
    (⟨"dev-1", "gcm", "chan", ["user:42"], []⟩ : Installation).platform =
        (if ("fcm" : String) = "fcm" then "gcm" else "fcm") ∧
      "chan" = "chan" ∧ ["user:42"] = ["user:42"] ∧
      ([] : List (String × Json)) = [] :=
  ⟨by rfl, C9_fcm_alias_rewrite "uuid-1" ⟨"dev-1", "fcm", "chan",
    ["user:42"], []⟩ 200 "dev-1" ⟨"dev-1", "gcm", "chan", ["user:42"], []⟩
    (by rfl)⟩

/-- C10: With an empty caller-supplied `InstallationID`, the fresh UUID is
assigned before validation and the PUT, and on success `RegisterDevice`
returns that (non-empty) ID; in general the returned ID equals the ID under
which the installation was registered, and is never empty. -/
theorem C10_register_returns_id (freshID : String) (i : Installation)
    (respStatus : Nat) (rid : String) (sent : Installation) :
    (i.installationID = "" →
      registerDevice freshID i respStatus = .ok (rid, sent) →
      rid = freshID ∧ sent.installationID = freshID) ∧
    (registerDevice freshID i respStatus = .ok (rid, sent) →
      rid = sent.installationID ∧ rid ≠ "") := by
  constructor
  · intro hid h
    obtain ⟨-, -, hsent, hrid⟩ := registerDevice_ok h
    have hsid : sent.installationID = freshID := by
      rw [hsent, sentInstallation_installationID, assignID]
      simp [hid]
    exact ⟨by rw [hrid, hsid], hsid⟩
  · intro h
    obtain ⟨hval, -, hsent, hrid⟩ := registerDevice_ok h
    refine ⟨hrid, ?_⟩
    rw [hrid, hsent, sentInstallation_installationID]
    exact validateInstallation_ok_id hval

/-- Witness for C10: an installation with an empty ID is registered under the
generated UUID, which is returned. -/
theorem C10_register_returns_id_witness :
    (⟨"", "apns", "chan", [], []⟩ : Installation).installationID = "" ∧
    registerDevice "uuid-7" ⟨"", "apns", "chan", [], []⟩ 200 =
      .ok ("uuid-7", ⟨"uuid-7", "apns", "chan", [], []⟩) ∧
    ("uuid-7" = "uuid-7" ∧
      (⟨"uuid-7", "apns", "chan", [], []⟩ : Installation).installationID =
        "uuid-7") ∧
    ("uuid-7" = (⟨"uuid-7", "apns", "chan", [], []⟩ :
        Installation).installationID ∧ ("uuid-7" : String) ≠ "") :=
  ⟨rfl, by rfl,
   (C10_register_returns_id "uuid-7" ⟨"", "apns", "chan", [], []⟩ 200
     "uuid-7" ⟨"uuid-7", "apns", "chan", [], []⟩).1 rfl (by rfl),
   (C10_register_returns_id "uuid-7" ⟨"", "apns", "chan", [], []⟩ 200
     "uuid-7" ⟨"uuid-7", "apns", "chan", [], []⟩).2 (by rfl)⟩

/-- C3: If every platform attempt reports device-not-found (HTTP 404 or 410)
then `SendNotification` fails with the device-not-found error naming the
requested tags; if at least one platform succeeds (2xx) while every other
platform reports device-not-found, the overall call succeeds. -/
theorem C3_no_device_aggregation (resp : String → Nat × String)
    (tags : List String) :
    ((∀ p ∈ availablePlatforms, (resp p).1 = 404 ∨ (resp p).1 = 410) →
      (sendNotification resp tags).1 = .noDeviceFound tags) ∧
    ((∃ p ∈ availablePlatforms, 200 ≤ (resp p).1 ∧ (resp p).1 < 300) →
      (∀ p ∈ availablePlatforms, (200 ≤ (resp p).1 ∧ (resp p).1 < 300) ∨
        (resp p).1 = 404 ∨ (resp p).1 = 410) →
      (sendNotification resp tags).1 = .ok) := by
  constructor
  · intro h
    have hsoft : ∀ p ∈ availablePlatforms, softStatus (resp p).1 :=
      fun p hp => (h p hp).elim Or.inl (fun h10 => Or.inr (Or.inl h10))
    have heq : sendNotification resp tags =
        sendLoop resp tags (availablePlatforms ++ []) 0 := by
      rw [List.append_nil, sendNotification]
    rw [heq, sendLoop_soft resp tags availablePlatforms [] 0 hsoft]
    have hcnt : List.countP (isNotFound resp) availablePlatforms =
        availablePlatforms.length := by
      rw [List.countP_eq_length]
      intro p hp
      rcases h p hp with h4 | h10
      · simp [isNotFound, h4]
      · simp [isNotFound, h10]
    rw [sendLoop_nil, hcnt]
    simp
  · intro hex hall
    have hsoft : ∀ p ∈ availablePlatforms, softStatus (resp p).1 := by
      intro p hp
      rcases hall p hp with h2 | h4 | h10
      · exact Or.inr (Or.inr h2.2)
      · exact Or.inl h4
      · exact Or.inr (Or.inl h10)
    have heq : sendNotification resp tags =
        sendLoop resp tags (availablePlatforms ++ []) 0 := by
      rw [List.append_nil, sendNotification]
    rw [heq, sendLoop_soft resp tags availablePlatforms [] 0 hsoft,
      sendLoop_nil]
    have hcnt : List.countP (isNotFound resp) availablePlatforms ≠
        availablePlatforms.length := by
      intro hc
      obtain ⟨p, hp, h2⟩ := hex
      have := (List.countP_eq_length.mp hc) p hp
      simp only [isNotFound, Bool.or_eq_true, beq_iff_eq] at this
      omega
    simp [Nat.zero_add, hcnt]

/-- Witness for C3: all-404 responses yield the tag-naming device-not-found
failure; a 404 on apple with 200 elsewhere yields overall success. -/
theorem C3_no_device_aggregation_witness :
    (∀ p ∈ availablePlatforms, ((fun _ => ((404 : Nat), "")) p).1 = 404 ∨
      ((fun _ => ((404 : Nat), "")) p).1 = 410) ∧
    (sendNotification (fun _ => (404, "")) ["user:42"]).1 =
      .noDeviceFound ["user:42"] ∧
    (∃ p ∈ availablePlatforms,
      200 ≤ ((fun q => if q = "apple" then ((404 : Nat), "") else (200, "")) p).1 ∧
      ((fun q => if q = "apple" then ((404 : Nat), "") else (200, "")) p).1 < 300) ∧
    (∀ p ∈ availablePlatforms,
      (200 ≤ ((fun q => if q = "apple" then ((404 : Nat), "") else (200, "")) p).1 ∧
        ((fun q => if q = "apple" then ((404 : Nat), "") else (200, "")) p).1 < 300) ∨
      ((fun q => if q = "apple" then ((404 : Nat), "") else (200, "")) p).1 = 404 ∨
      ((fun q => if q = "apple" then ((404 : Nat), "") else (200, "")) p).1 = 410) ∧
    (sendNotification (fun q => if q = "apple" then (404, "") else (200, ""))
      ["user:42"]).1 = .ok :=
  ⟨by decide,
   (C3_no_device_aggregation (fun _ => (404, "")) ["user:42"]).1 (by decide),
   by decide, by decide,
   (C3_no_device_aggregation
     (fun q => if q = "apple" then (404, "") else (200, "")) ["user:42"]).2
     (by decide) (by decide)⟩

/-- C4: A hard platform error (status ≥ 300 other than 404/410) aborts the
dispatch immediately: `SendNotification` returns the platform error carrying
the platform name, status and body, the platforms after it in iteration
order are not attempted, and earlier device-not-found tallies do not mask
it. -/
theorem C4_hard_error_aborts (resp : String → Nat × String)
    (tags : List String) (pre post : List String) (p : String)
    (hsplit : availablePlatforms = pre ++ p :: post)
    (hpre : ∀ q ∈ pre, (resp q).1 = 404 ∨ (resp q).1 = 410 ∨ (resp q).1 < 300)
    (h3 : 300 ≤ (resp p).1) (h4 : (resp p).1 ≠ 404)
    (h10 : (resp p).1 ≠ 410) :
    sendNotification resp tags =
      (.platformError p (resp p).1 (resp p).2, pre ++ [p]) := by
  rw [sendNotification, hsplit, sendLoop_soft resp tags pre (p :: post) 0 hpre,
    sendLoop_hard resp tags p post _ h3 h4 h10]

/-- Witness for C4: a 404 on apple followed by a 500 on gcm returns the gcm
platform error without attempting fcmV1. -/
theorem C4_hard_error_aborts_witness :
    availablePlatforms = ["apple"] ++ "gcm" :: ["fcmV1"] ∧
    (∀ q ∈ ["apple"],
      ((fun q => if q = "gcm" then ((500 : Nat), "server error")
        else if q = "apple" then (404, "") else (200, "")) q).1 = 404 ∨
      ((fun q => if q = "gcm" then ((500 : Nat), "server error")
        else if q = "apple" then (404, "") else (200, "")) q).1 = 410 ∨
      ((fun q => if q = "gcm" then ((500 : Nat), "server error")
        else if q = "apple" then (404, "") else (200, "")) q).1 < 300) ∧
    sendNotification
      (fun q => if q = "gcm" then (500, "server error")
        else if q = "apple" then (404, "") else (200, "")) ["user:42"] =
      (.platformError "gcm" 500 "server error", ["apple"] ++ ["gcm"]) :=
  ⟨by decide, by decide,
   C4_hard_error_aborts
     (fun q => if q = "gcm" then (500, "server error")
       else if q = "apple" then (404, "") else (200, "")) ["user:42"]
     ["apple"] ["fcmV1"] "gcm" (by decide) (by decide) (by decide)
     (by decide) (by decide)⟩

/-- Counterexample to C2 as stated: at the exact boundary instant
`now = expiresAt - margin` the claim calls for a refresh ("at or past"), but
`time.Now().After` is strict, so the code serves the cached token and does
not invoke the issuer. -/
theorem C2_token_cache_counterexample :
    ¬ ((getToken ⟨strBytes "ns", strBytes "hub", strBytes "kn",
          strBytes "kv", 3600⟩ ⟨strBytes "cached", 300⟩ 0).refreshed = true ↔
       (strBytes "cached" = [] ∨ (0 : Int) ≥ 300 - 300)) := by
  decide

/-- C2 (amended): `GetToken` recomputes via the issuer exactly when the
cached token is empty or the current time is *strictly past*
`expiresAt - margin` (margin = 5 minutes); on a cache hit it returns the
cached value with no recomputation, so two calls within the validity window
minus the margin return byte-identical tokens, and a call after the window
returns a different token. -/
theorem C2_token_cache_behavior :
    (∀ (cfg : Configuration) (s : TMState) (now : Int),
      (getToken cfg s now).refreshed = true ↔
        (s.token = [] ∨ s.expiresAt - 300 < now)) ∧
    (∀ (cfg : Configuration) (s : TMState) (now : Int), s.token ≠ [] →
      ¬(s.expiresAt - 300 < now) →
      getToken cfg s now = ⟨.ok s.token, s, false⟩) ∧
    (∀ (cfg : Configuration) (s : TMState) (now1 now2 : Int), s.token ≠ [] →
      now1 ≤ s.expiresAt - 300 → now2 ≤ s.expiresAt - 300 →
      (getToken cfg s now1).result = (getToken cfg s now2).result) ∧
    (∀ (cfg : Configuration) (s : TMState) (now1 now2 : Int),
      needsRefresh s now1 = true → cfg.keyName ≠ [] → cfg.keyValue ≠ [] →
      0 ≤ cfg.tokenValiditySecs →
      (getToken cfg s now1).state.expiresAt < now2 →
      ∃ t1 t2, (getToken cfg s now1).result = .ok t1 ∧
        (getToken cfg (getToken cfg s now1).state now2).result = .ok t2 ∧
        t1 ≠ t2) := by
  refine ⟨?_, ?_, ?_, ?_⟩
  · intro cfg s now
    rw [getToken_refreshed, needsRefresh_iff]
  · intro cfg s now h1 h2
    exact getToken_hit cfg s now (needsRefresh_false s now h1 h2)
  · intro cfg s now1 now2 h1 hm1 hm2
    rw [getToken_hit cfg s now1 (needsRefresh_false s now1 h1 (by omega)),
      getToken_hit cfg s now2 (needsRefresh_false s now2 h1 (by omega))]
  · intro cfg s now1 now2 hr hk hv hval hlt
    rw [getToken_refresh_ok cfg s now1 hr hk hv] at hlt ⊢
    dsimp only at hlt ⊢
    have hr2 : needsRefresh
        ⟨sasTokenBytes (resourceURI cfg) cfg.keyName cfg.keyValue
          (now1 + cfg.tokenValiditySecs), now1 + cfg.tokenValiditySecs⟩
        now2 = true := by
      rw [needsRefresh_iff]
      right
      dsimp only
      omega
    rw [getToken_refresh_ok cfg _ now2 hr2 hk hv]
    dsimp only
    refine ⟨_, _, rfl, rfl, fun heq => ?_⟩
    have := sasTokenBytes_ttl_inj heq
    omega

/-- Witness for C2 (amended), exercising all four conjuncts at concrete
configurations, states and instants. -/
theorem C2_token_cache_behavior_witness :
    ((getToken ⟨strBytes "n", strBytes "h", strBytes "kn", strBytes "kv",
        3600⟩ ⟨[], 0⟩ 0).refreshed = true ↔
      (([] : List Nat) = [] ∨ (0 : Int) - 300 < 0)) ∧
    (strBytes "tok" ≠ [] ∧ ¬((1000 : Int) - 300 < 0) ∧
      getToken ⟨strBytes "n", strBytes "h", strBytes "kn", strBytes "kv",
        3600⟩ ⟨strBytes "tok", 1000⟩ 0 =
        ⟨.ok (strBytes "tok"), ⟨strBytes "tok", 1000⟩, false⟩) ∧
    ((getToken ⟨strBytes "n", strBytes "h", strBytes "kn", strBytes "kv",
        3600⟩ ⟨strBytes "tok", 1000⟩ 100).result =
      (getToken ⟨strBytes "n", strBytes "h", strBytes "kn", strBytes "kv",
        3600⟩ ⟨strBytes "tok", 1000⟩ 700).result) ∧
    (∃ t1 t2,
      (getToken ⟨strBytes "n", strBytes "h", strBytes "kn", strBytes "kv",
        3600⟩ ⟨[], 0⟩ 0).result = .ok t1 ∧
      (getToken ⟨strBytes "n", strBytes "h", strBytes "kn", strBytes "kv",
        3600⟩ (getToken ⟨strBytes "n", strBytes "h", strBytes "kn",
          strBytes "kv", 3600⟩ ⟨[], 0⟩ 0).state 10000).result = .ok t2 ∧
      t1 ≠ t2) :=
  ⟨C2_token_cache_behavior.1 _ _ 0,
   ⟨by decide, by decide,
    C2_token_cache_behavior.2.1 _ _ 0 (by decide) (by decide)⟩,
   C2_token_cache_behavior.2.2.1 _ _ 100 700 (by decide) (by decide)
     (by decide),
   C2_token_cache_behavior.2.2.2 _ _ 0 10000 (by decide) (by decide)
     (by decide) (by decide) (by decide)⟩

end Azurepush
